import Mathlib

/-!
Verification development for the `EmbeddingDatabaseService` of
`src/services/embeddingDatabase.js` (the embedding-cache synchronization
object).  The JavaScript class is shallowly embedded as explicit
state-passing functions over a world state `St` that holds the service's
in-memory fields, the persisted key-value store, the bundled CSV file, the
clock, the remote collaborator's response, and a failure schedule for the
key-value store operations.  Fallible operations return
`Except Unit α × St` (a thrown/rejected promise is `Except.error ()`).
-/

namespace GdRpg

/-- JavaScript numbers as produced by `Number(...)`: either `NaN` or a
numeric value, the numeric value modelled exactly by a rational. -/
inductive JsNum where
  | nan : JsNum
  | num : Rat → JsNum
deriving DecidableEq

/-- JavaScript `str.split(sep)` for a one-character separator: splits at
every occurrence of `sep`, keeping empty pieces (so the result always has
one more piece than there are separators). -/
def splitOnChar (sep : Char) : List Char → List (List Char)
  | [] => [[]]
  | c :: cs =>
    if c = sep then [] :: splitOnChar sep cs
    else
      match splitOnChar sep cs with
      | [] => [[c]]
      | g :: gs => (c :: g) :: gs

/-- Decimal value of a digit list (most significant first). -/
def digitsVal (l : List Char) : Nat :=
  l.foldl (fun a c => 10 * a + (c.toNat - 48)) 0

/-- Longest digit prefix and the remainder. -/
def takeDigits : List Char → List Char × List Char
  | [] => ([], [])
  | c :: cs =>
    if c.isDigit then
      match takeDigits cs with
      | (d, r) => (c :: d, r)
    else ([], c :: cs)

/-- JavaScript `String.prototype.trim()` on a character list. -/
def jsTrimChars (l : List Char) : List Char :=
  ((l.dropWhile Char.isWhitespace).reverse.dropWhile Char.isWhitespace).reverse

/-- Model of JavaScript `Number(s)` on an already-trimmed character list,
restricted to plain signed decimal literals: the empty string is `0`, an
optional sign followed by digits with an optional fractional part is the
corresponding rational (built as `(intPart·10^k + fracPart) / 10^k` with
`k` the number of fractional digits), anything else is `NaN`. -/
def jsNumberCore (l : List Char) : JsNum :=
  match l with
  | [] => JsNum.num 0
  | _ =>
    let p : Int × List Char :=
      match l with
      | '-' :: cs => (-1, cs)
      | '+' :: cs => (1, cs)
      | cs => (1, cs)
    match takeDigits p.2 with
    | (ip, r1) =>
      match r1 with
      | [] => if ip = [] then JsNum.nan else JsNum.num (mkRat (p.1 * digitsVal ip) 1)
      | '.' :: r2 =>
        match takeDigits r2 with
        | (fp, r3) =>
          if r3 = [] ∧ ¬(ip = [] ∧ fp = []) then
            JsNum.num (mkRat (p.1 * (digitsVal ip * 10 ^ fp.length + digitsVal fp)) (10 ^ fp.length))
          else JsNum.nan
      | _ => JsNum.nan

/-- JavaScript `Number(s)`: trims whitespace, then parses as above
(`line 122` maps each token of the embedding field through `Number`). -/
def jsNumber (l : List Char) : JsNum := jsNumberCore (jsTrimChars l)

/-- One in-memory skill embedding: the `{ skill, embedding }` objects the
service keeps in `this.embeddings` (the spec's SkillEmbedding). -/
structure Entry where
  skill : String
  embedding : List JsNum
deriving DecidableEq

/-- The effect of `rows[i].split(/,(.+)/)` (line 118): `some (pre, suf)`
when the line has a comma with a nonempty remainder `suf` after the FIRST
comma, `none` when the line has no comma at all.  (A line ending in its
only comma does not match `,(.+)` either; that shows up as `suf = []` and
is rejected by the caller's falsy check, like the regex's non-match.) -/
def splitFirstComma : List Char → Option (List Char × List Char)
  | [] => none
  | c :: cs =>
    if c = ',' then some ([], cs)
    else (splitFirstComma cs).map (fun p => (c :: p.1, p.2))

/-- `embeddingStr.replace(/"/g, "")` (line 122): drop every double quote. -/
def stripQuotes (l : List Char) : List Char := l.filter (fun c => c ≠ '"')

/-- The tokens of the quote-stripped embedding field: `.split(" ")`
(line 122). -/
def embeddingTokens (l : List Char) : List (List Char) :=
  splitOnChar ' ' (stripQuotes l)

/-- Lines 117-124 of `loadFromCsv`: split on the first comma only; skip the
line (`continue`) when there is no comma, the skill field is empty, or the
embedding field is empty (the `!skill || !embeddingStr` falsy check);
otherwise strip quotes, split the field on spaces and parse each token as a
number. -/
def parseLine (line : List Char) : Option Entry :=
  match splitFirstComma line with
  | none => none
  | some (skill, rest) =>
    if skill = [] ∨ rest = [] then none
    else some ⟨⟨skill⟩, (embeddingTokens rest).map jsNumber⟩

/-- `!rows[i].trim()` (line 115): the row is blank (empty or whitespace). -/
def isBlankRow (l : List Char) : Bool := l.all Char.isWhitespace

/-- The parsing loop of `loadFromCsv` (lines 113-125) over the list of
rows: skip the header row (`i = 1`), skip blank rows, skip rows missing a
field, keep one entry per remaining row. -/
def parseCsvRows (rows : List (List Char)) : List Entry :=
  (rows.drop 1).filterMap (fun row => if isBlankRow row then none else parseLine row)

/-- `content.split("\n")` followed by the parsing loop (lines 110-125). -/
def parseCsv (content : String) : List Entry :=
  parseCsvRows (splitOnChar '\n' content.data)

/-- The persisted key-value store (`mmkvStorage`), restricted to the four
fixed keys the service uses: `@embeddings_last_sync`,
`@embeddings_offline_mode`, `@embeddings_cache`, `@skill_names_cache`.
Values are stored JSON-encoded; since the service only ever writes
`JSON.stringify` of a number, a boolean, an entry list, or a string list,
and `JSON.parse` inverts those, the store is modelled with the decoded
values directly. -/
structure Store where
  lastSync : Option Int
  offlineMode : Option Bool
  embedCache : Option (List Entry)
  skillNames : Option (List String)
deriving DecidableEq

/-- A row of the remote `skill_embeddings` table as returned by the
`select("skill_name, embedding_vector")` query. -/
structure RemoteRow where
  skill_name : String
  embedding_vector : List JsNum
deriving DecidableEq

/-- The in-memory fields of the `EmbeddingDatabaseService` instance set by
the constructor (lines 16-20). -/
structure Svc where
  isOfflineMode : Bool
  initialized : Bool
  embeddings : List Entry
deriving DecidableEq

/-- The constructor's state: `isOfflineMode = false`,
`initialized = false`, `embeddings = []`. -/
def newService : Svc :=
  { isOfflineMode := false, initialized := false, embeddings := [] }

/-- The whole world the service interacts with: its own fields, the store,
the bundled CSV file's content (`none` = file absent), the clock
(`Date.now()` in epoch milliseconds), the remote collaborator's response
to the select-all query (`Except.error ()` models both a returned `error`
and a thrown network failure), the platform, failure flags for the three
file-system calls, and a failure schedule for the key-value store: the
n-th store operation of a run rejects when the n-th schedule entry is
`true` (absent entries mean success).  `remoteQueries` counts the remote
select queries issued and `cacheReads` the reads of the embeddings-cache
key; both are observation-only trace counters. -/
structure St where
  svc : Svc
  store : Store
  fileCsv : Option String
  now : Int
  remote : Except Unit (List RemoteRow)
  platformWeb : Bool
  fsInfoFails : Bool
  fsWriteFails : Bool
  fsReadFails : Bool
  storeFailures : List Bool
  storeOpIdx : Nat
  remoteQueries : Nat
  cacheReads : Nat

/-- Whether the next key-value store operation of this run rejects,
according to the failure schedule. -/
def storeFails (s : St) : Bool := s.storeFailures.getD s.storeOpIdx false

/-- Advance the store-operation counter (every store call, failed or not,
consumes one schedule slot). -/
def bump (s : St) : St := { s with storeOpIdx := s.storeOpIdx + 1 }

/-- Advance the counter and also record one local-cache read. -/
def bumpRead (s : St) : St :=
  { s with storeOpIdx := s.storeOpIdx + 1, cacheReads := s.cacheReads + 1 }

/-- Record one remote select query. -/
def bumpRQ (s : St) : St := { s with remoteQueries := s.remoteQueries + 1 }

/-- Write the offline-mode key of the store. -/
def putOffline (b : Bool) (s : St) : St :=
  { s with store := { s.store with offlineMode := some b } }

/-- Write the last-sync key of the store. -/
def putLastSync (t : Int) (s : St) : St :=
  { s with store := { s.store with lastSync := some t } }

/-- Write the skill-names key of the store. -/
def putSkillNames (ns : List String) (s : St) : St :=
  { s with store := { s.store with skillNames := some ns } }

/-- Write the embeddings-cache key of the store. -/
def putEmbedCache (es : List Entry) (s : St) : St :=
  { s with store := { s.store with embedCache := some es } }

/-- Assign `this.embeddings`. -/
def putEmbeddings (es : List Entry) (s : St) : St :=
  { s with svc := { s.svc with embeddings := es } }

/-- Assign `this.isOfflineMode`. -/
def putMode (b : Bool) (s : St) : St :=
  { s with svc := { s.svc with isOfflineMode := b } }

/-- Assign `this.initialized`. -/
def putInit (b : Bool) (s : St) : St :=
  { s with svc := { s.svc with initialized := b } }

/-- `mmkvStorage.getString(OFFLINE_MODE_KEY)` (line 30). -/
def storeGetOfflineMode (s : St) : Except Unit (Option Bool) × St :=
  if storeFails s then (Except.error (), bump s)
  else (Except.ok s.store.offlineMode, bump s)

/-- `mmkvStorage.getString(LAST_SYNC_KEY)` (lines 58, 254). -/
def storeGetLastSync (s : St) : Except Unit (Option Int) × St :=
  if storeFails s then (Except.error (), bump s)
  else (Except.ok s.store.lastSync, bump s)

/-- `mmkvStorage.getString(EMBEDDINGS_CACHE_KEY)` (line 67); this is the
local-cache read counted by `cacheReads`. -/
def storeGetEmbedCache (s : St) : Except Unit (Option (List Entry)) × St :=
  if storeFails s then (Except.error (), bumpRead s)
  else (Except.ok s.store.embedCache, bumpRead s)

/-- `mmkvStorage.set(OFFLINE_MODE_KEY, JSON.stringify(isOffline))`
(line 44). -/
def storeSetOfflineMode (b : Bool) (s : St) : Except Unit Unit × St :=
  if storeFails s then (Except.error (), bump s)
  else (Except.ok (), putOffline b (bump s))

/-- `mmkvStorage.set(LAST_SYNC_KEY, JSON.stringify(Date.now()))`
(line 162). -/
def storeSetLastSync (t : Int) (s : St) : Except Unit Unit × St :=
  if storeFails s then (Except.error (), bump s)
  else (Except.ok (), putLastSync t (bump s))

/-- `mmkvStorage.set(SKILL_NAMES_CACHE_KEY, JSON.stringify(skillNamesOnly))`
(line 163). -/
def storeSetSkillNames (ns : List String) (s : St) : Except Unit Unit × St :=
  if storeFails s then (Except.error (), bump s)
  else (Except.ok (), putSkillNames ns (bump s))

/-- `mmkvStorage.set(EMBEDDINGS_CACHE_KEY, JSON.stringify(parsed))`
(line 130). -/
def storeSetEmbedCache (es : List Entry) (s : St) : Except Unit Unit × St :=
  if storeFails s then (Except.error (), bump s)
  else (Except.ok (), putEmbedCache es (bump s))

/-- `FileSystem.getInfoAsync(csvPath)` (line 92): reports whether the
bundled CSV file exists. -/
def fsGetInfo (s : St) : Except Unit Bool × St :=
  if s.fsInfoFails then (Except.error (), s) else (Except.ok s.fileCsv.isSome, s)

/-- `FileSystem.writeAsStringAsync(csvPath, header)` (lines 97-98): create
the default header-only file. -/
def fsWriteHeader (s : St) : Except Unit Unit × St :=
  if s.fsWriteFails then (Except.error (), s)
  else (Except.ok (), { s with fileCsv := some "Skill,Embedding\n" })

/-- `FileSystem.readAsStringAsync(csvPath)` (line 109): reading a missing
file rejects. -/
def fsReadCsv (s : St) : Except Unit String × St :=
  if s.fsReadFails then (Except.error (), s)
  else
    match s.fileCsv with
    | none => (Except.error (), s)
    | some c => (Except.ok c, s)

/-- The `supabase.from("skill_embeddings").select(...).order(...)` query
(line 145).  Issuing it increments the `remoteQueries` trace counter. -/
def remoteSelectAll (s : St) : Except Unit (List RemoteRow) × St :=
  (s.remote, bumpRQ s)

/-- `loadFromCsv()` (lines 85-137).  The whole body sits in a try/catch
whose catch returns `[]`; the write of the default file has its own inner
try/catch that only logs.  On the happy path the parsed entries replace
`this.embeddings` and are written back to the embeddings-cache key. -/
def loadFromCsv (s : St) : Except Unit (List Entry) × St :=
  let ensure : Except Unit Unit × St :=
    if s.platformWeb then (Except.ok (), s)
    else
      match fsGetInfo s with
      | (Except.error e, s1) => (Except.error e, s1)
      | (Except.ok ex, s1) =>
        if ex then (Except.ok (), s1)
        else
          match fsWriteHeader s1 with
          | (Except.error _, s2) => (Except.ok (), s2)
          | (Except.ok _, s2) => (Except.ok (), s2)
  match ensure with
  | (Except.error _, s1) => (Except.ok [], s1)
  | (Except.ok _, s1) =>
    match fsReadCsv s1 with
    | (Except.error _, s2) => (Except.ok [], s2)
    | (Except.ok content, s2) =>
      let parsed := parseCsv content
      match storeSetEmbedCache parsed (putEmbeddings parsed s2) with
      | (Except.error _, s4) => (Except.ok [], s4)
      | (Except.ok _, s4) => (Except.ok parsed, s4)

/-- `loadCachedEmbeddings()` (lines 65-80): read the cache key; if a blob
is present it replaces `this.embeddings` and is returned; if absent, fall
back to `loadFromCsv` and return `this.embeddings`; any error is caught
and `[]` returned with no state change. -/
def loadCachedEmbeddings (s : St) : Except Unit (List Entry) × St :=
  match storeGetEmbedCache s with
  | (Except.error _, s1) => (Except.ok [], s1)
  | (Except.ok (some cached), s1) =>
    (Except.ok cached, putEmbeddings cached s1)
  | (Except.ok none, s1) =>
    match loadFromCsv s1 with
    | (Except.error _, s2) => (Except.ok [], s2)
    | (Except.ok _, s2) => (Except.ok s2.svc.embeddings, s2)

/-- `initialize()` (lines 26-37): no-op once `initialized`; otherwise read
the persisted offline-mode flag (default `false` when absent), load the
cached embeddings, and mark the service initialized.  There is no
try/catch here: a rejecting store read propagates. -/
def initService (s : St) : Except Unit Unit × St :=
  if s.svc.initialized then (Except.ok (), s)
  else
    match storeGetOfflineMode s with
    | (Except.error e, s1) => (Except.error e, s1)
    | (Except.ok v, s1) =>
      match loadCachedEmbeddings (putMode (v.getD false) s1) with
      | (Except.error e, s3) => (Except.error e, s3)
      | (Except.ok _, s3) => (Except.ok (), putInit true s3)

/-- `setOfflineMode(isOffline)` (lines 42-45): assign the in-memory flag,
then persist it.  There is no try/catch: a rejecting store write
propagates (after the in-memory assignment has already happened). -/
def setOfflineMode (b : Bool) (s : St) : Except Unit Unit × St :=
  storeSetOfflineMode b (putMode b s)

/-- `getOfflineMode()` (lines 50-52): returns the in-memory flag, no
I/O. -/
def getOfflineMode (s : St) : Bool := s.svc.isOfflineMode

/-- `syncFromCloud()` (lines 142-175).  On a query error, return
`this.embeddings` unchanged.  On nonempty data, replace `this.embeddings`
with the rows mapped to the local `{ skill, embedding }` shape, then
persist the sync timestamp and the skill names only.  On empty data,
return `this.embeddings` unchanged.  The try/catch around the body turns a
rejecting store write into returning `this.embeddings` as well. -/
def syncFromCloud (s : St) : Except Unit (List Entry) × St :=
  match remoteSelectAll s with
  | (Except.error _, s1) => (Except.ok s1.svc.embeddings, s1)
  | (Except.ok data, s1) =>
    if data.length > 0 then
      let mapped := data.map (fun r => Entry.mk r.skill_name r.embedding_vector)
      let s2 := putEmbeddings mapped s1
      match storeSetLastSync s2.now s2 with
      | (Except.error _, s3) => (Except.ok s3.svc.embeddings, s3)
      | (Except.ok _, s3) =>
        match storeSetSkillNames (data.map (fun r => r.skill_name)) s3 with
        | (Except.error _, s4) => (Except.ok s4.svc.embeddings, s4)
        | (Except.ok _, s4) => (Except.ok mapped, s4)
    else (Except.ok s1.svc.embeddings, s1)

/-- The staleness threshold `ONE_HOUR = 60 * 60 * 1000` (line 256). -/
def ONE_HOUR : Int := 60 * 60 * 1000

/-- Lines 248-250 of `getEmbeddings()`: when the in-memory set is empty,
load the cached embeddings (result discarded). -/
def getEmbLoadStep (s : St) : Except Unit Unit × St :=
  if s.svc.embeddings.isEmpty then
    match loadCachedEmbeddings s with
    | (Except.error e, s2) => (Except.error e, s2)
    | (Except.ok _, s2) => (Except.ok (), s2)
  else (Except.ok (), s)

/-- Lines 252-263 of `getEmbeddings()`: when online, read the persisted
sync timestamp (absent means `0`, line 255) and pull from the cloud when
strictly more than `ONE_HOUR` has passed; otherwise return the in-memory
set.  The timestamp read has no try/catch: its error propagates. -/
def getEmbSyncStep (s : St) : Except Unit (List Entry) × St :=
  if s.svc.isOfflineMode then (Except.ok s.svc.embeddings, s)
  else
    match storeGetLastSync s with
    | (Except.error e, s3) => (Except.error e, s3)
    | (Except.ok v, s3) =>
      if s3.now - v.getD 0 > ONE_HOUR then syncFromCloud s3
      else (Except.ok s3.svc.embeddings, s3)

/-- `getEmbeddings()` (lines 245-264): ensure initialization, run the
empty-set cache load, then the staleness-gated cloud pull.  The un-caught
store reads (in `initialize` and the staleness check) propagate their
errors. -/
def getEmbeddings (s : St) : Except Unit (List Entry) × St :=
  match initService s with
  | (Except.error e, s1) => (Except.error e, s1)
  | (Except.ok _, s1) =>
    match getEmbLoadStep s1 with
    | (Except.error e, s2) => (Except.error e, s2)
    | (Except.ok _, s2) => getEmbSyncStep s2

/-!
Characterization lemmas: each run of a service method is described by an
equation or a frame bundle, from which the claims are assembled.
-/

theorem storeFails_nil (s : St) (h : s.storeFailures = []) : storeFails s = false := by
  simp [storeFails, h]

/-- A failed remote query leaves everything but the query counter alone
and returns the in-memory set. -/
theorem syncFromCloud_err (s : St) (h : s.remote = Except.error ()) :
    syncFromCloud s = (Except.ok s.svc.embeddings, bumpRQ s) := by
  unfold syncFromCloud remoteSelectAll
  rw [h]
  rfl

/-- A successful remote query with no rows takes the `data.length > 0`
check's else path: nothing but the query counter changes. -/
theorem syncFromCloud_emptyData (s : St) (h : s.remote = Except.ok []) :
    syncFromCloud s = (Except.ok s.svc.embeddings, bumpRQ s) := by
  unfold syncFromCloud remoteSelectAll
  rw [h]
  simp [bumpRQ]

/-- A successful nonempty remote query with a healthy store: replace the
in-memory set with the mapped rows and persist the timestamp and skill
names. -/
theorem syncFromCloud_ok (s : St) (rows : List RemoteRow) (hr : s.remote = Except.ok rows)
    (hne : rows ≠ []) (hf : s.storeFailures = []) :
    syncFromCloud s =
      (Except.ok (rows.map (fun r => Entry.mk r.skill_name r.embedding_vector)),
       putSkillNames (rows.map (fun r => r.skill_name))
         (bump (putLastSync s.now
           (bump (putEmbeddings (rows.map (fun r => Entry.mk r.skill_name r.embedding_vector))
             (bumpRQ s)))))) := by
  unfold syncFromCloud remoteSelectAll
  rw [hr]
  simp [storeSetLastSync, storeSetSkillNames, storeFails, hf, bumpRQ, putEmbeddings,
    putLastSync, putSkillNames, bump, List.length_pos, hne]

/-- `loadFromCsv` only ever touches the embeddings-cache key, the file,
the in-memory set and the operation counter, and never rejects. -/
theorem loadFromCsv_frame (s : St) :
    (loadFromCsv s).2.svc.initialized = s.svc.initialized ∧
    (loadFromCsv s).2.svc.isOfflineMode = s.svc.isOfflineMode ∧
    (loadFromCsv s).2.store.lastSync = s.store.lastSync ∧
    (loadFromCsv s).2.store.offlineMode = s.store.offlineMode ∧
    (loadFromCsv s).2.store.skillNames = s.store.skillNames ∧
    (loadFromCsv s).2.now = s.now ∧
    (loadFromCsv s).2.remote = s.remote ∧
    (loadFromCsv s).2.remoteQueries = s.remoteQueries ∧
    (loadFromCsv s).2.storeFailures = s.storeFailures ∧
    (loadFromCsv s).2.cacheReads = s.cacheReads ∧
    (∃ v, (loadFromCsv s).1 = Except.ok v) := by
  obtain ⟨svc, store, file, now, remote, pw, fi, fw, fr, sched, idx, rq, cr⟩ := s
  cases hsc : sched[idx]?.getD false <;>
  cases pw <;> cases fi <;> cases fw <;> cases fr <;> cases file <;>
    simp [loadFromCsv, fsGetInfo, fsWriteHeader, fsReadCsv, storeSetEmbedCache,
      storeFails, bump, putEmbedCache, putEmbeddings, hsc]

/-- `loadCachedEmbeddings` performs exactly one cache read, never rejects,
and leaves every persisted key except the embeddings cache, the mode and
initialization flags, the clock, the remote response and both failure
controls alone. -/
theorem loadCachedEmbeddings_frame (s : St) :
    (loadCachedEmbeddings s).2.svc.initialized = s.svc.initialized ∧
    (loadCachedEmbeddings s).2.svc.isOfflineMode = s.svc.isOfflineMode ∧
    (loadCachedEmbeddings s).2.store.lastSync = s.store.lastSync ∧
    (loadCachedEmbeddings s).2.store.offlineMode = s.store.offlineMode ∧
    (loadCachedEmbeddings s).2.store.skillNames = s.store.skillNames ∧
    (loadCachedEmbeddings s).2.now = s.now ∧
    (loadCachedEmbeddings s).2.remote = s.remote ∧
    (loadCachedEmbeddings s).2.remoteQueries = s.remoteQueries ∧
    (loadCachedEmbeddings s).2.storeFailures = s.storeFailures ∧
    (loadCachedEmbeddings s).2.cacheReads = s.cacheReads + 1 ∧
    (∃ v, (loadCachedEmbeddings s).1 = Except.ok v) := by
  unfold loadCachedEmbeddings storeGetEmbedCache
  cases hsc : storeFails s
  · cases hec : s.store.embedCache with
    | none =>
      simp only [hsc, hec, Bool.false_eq_true, if_false]
      rcases hL : loadFromCsv (bumpRead s) with ⟨r, s2⟩
      have H := loadFromCsv_frame (bumpRead s)
      rw [hL] at H
      obtain ⟨h1, h2, h3, h4, h5, h6, h7, h8, h9, h10, hok⟩ := H
      cases r <;> simp_all [bumpRead]
    | some c =>
      simp [hsc, hec, bumpRead, putEmbeddings]
  · simp [hsc, bumpRead]

/-- A cache hit with a healthy store: the blob replaces the in-memory set
and is returned. -/
theorem loadCachedEmbeddings_hit (s : St) (c : List Entry)
    (hsc : storeFails s = false) (hc : s.store.embedCache = some c) :
    loadCachedEmbeddings s = (Except.ok c, putEmbeddings c (bumpRead s)) := by
  simp [loadCachedEmbeddings, storeGetEmbedCache, hsc, hc]

/-- `initialize()` is a no-op once `initialized` is set. -/
theorem initService_done (s : St) (h : s.svc.initialized = true) :
    initService s = (Except.ok (), s) := by
  simp [initService, h]

/-- First `initialize()` with a healthy flag read: adopt the persisted
offline flag (default `false`), load the cache, set `initialized`. -/
theorem initService_run (s : St) (h : s.svc.initialized = false)
    (hsc : storeFails s = false) :
    initService s =
      (Except.ok (),
       putInit true
         (loadCachedEmbeddings (putMode (s.store.offlineMode.getD false) (bump s))).2) := by
  unfold initService storeGetOfflineMode
  simp only [h, hsc, Bool.false_eq_true, if_false]
  rcases hL : loadCachedEmbeddings (putMode (s.store.offlineMode.getD false) (bump s))
    with ⟨r, s3⟩
  have H := loadCachedEmbeddings_frame (putMode (s.store.offlineMode.getD false) (bump s))
  rw [hL] at H
  cases r <;> simp_all

/-- First `initialize()` whose offline-flag read rejects: the error
propagates and nothing of the service was assigned yet. -/
theorem initService_fail (s : St) (h : s.svc.initialized = false)
    (hsc : storeFails s = true) :
    initService s = (Except.error (), bump s) := by
  simp [initService, storeGetOfflineMode, h, hsc]

/-- The empty-set cache-load step: a no-op on a nonempty in-memory set,
one `loadCachedEmbeddings` call otherwise; never rejects. -/
theorem getEmbLoadStep_frame (s : St) :
    (getEmbLoadStep s).1 = Except.ok () ∧
    (getEmbLoadStep s).2.svc.initialized = s.svc.initialized ∧
    (getEmbLoadStep s).2.svc.isOfflineMode = s.svc.isOfflineMode ∧
    (getEmbLoadStep s).2.store.lastSync = s.store.lastSync ∧
    (getEmbLoadStep s).2.store.offlineMode = s.store.offlineMode ∧
    (getEmbLoadStep s).2.store.skillNames = s.store.skillNames ∧
    (getEmbLoadStep s).2.now = s.now ∧
    (getEmbLoadStep s).2.remote = s.remote ∧
    (getEmbLoadStep s).2.remoteQueries = s.remoteQueries ∧
    (getEmbLoadStep s).2.storeFailures = s.storeFailures ∧
    (getEmbLoadStep s).2.cacheReads ≥ s.cacheReads ∧
    (s.svc.embeddings.isEmpty = true →
      (getEmbLoadStep s).2.cacheReads = s.cacheReads + 1) ∧
    (s.svc.embeddings.isEmpty = false → getEmbLoadStep s = (Except.ok (), s)) := by
  unfold getEmbLoadStep
  cases hemp : s.svc.embeddings.isEmpty
  · simp [hemp]
  · simp only [hemp, if_true]
    rcases hL : loadCachedEmbeddings s with ⟨r, s2⟩
    have H := loadCachedEmbeddings_frame s
    rw [hL] at H
    cases r <;> simp_all

/-- The staleness step in offline mode returns the in-memory set with no
store or remote interaction at all. -/
theorem getEmbSyncStep_offline (s : St) (hm : s.svc.isOfflineMode = true) :
    getEmbSyncStep s = (Except.ok s.svc.embeddings, s) := by
  simp [getEmbSyncStep, hm]

/-- The staleness step online with a fresh timestamp: one store read, no
remote query. -/
theorem getEmbSyncStep_fresh (s : St) (hm : s.svc.isOfflineMode = false)
    (hsc : storeFails s = false)
    (hfresh : ¬(s.now - s.store.lastSync.getD 0 > ONE_HOUR)) :
    getEmbSyncStep s = (Except.ok s.svc.embeddings, bump s) := by
  simp [getEmbSyncStep, storeGetLastSync, hm, hsc, bump, hfresh]

/-- The staleness step online with a stale (or absent, `getD 0`)
timestamp: the cloud pull runs from the post-read state. -/
theorem getEmbSyncStep_stale (s : St) (hm : s.svc.isOfflineMode = false)
    (hsc : storeFails s = false)
    (hstale : s.now - s.store.lastSync.getD 0 > ONE_HOUR) :
    getEmbSyncStep s = syncFromCloud (bump s) := by
  simp [getEmbSyncStep, storeGetLastSync, hm, hsc, bump, hstale]

/-- The staleness step online whose timestamp read rejects: the error
propagates, no remote query. -/
theorem getEmbSyncStep_fail (s : St) (hm : s.svc.isOfflineMode = false)
    (hsc : storeFails s = true) :
    getEmbSyncStep s = (Except.error (), bump s) := by
  simp [getEmbSyncStep, storeGetLastSync, hm, hsc]

/-- A service world as it looks right after the module-level
`new EmbeddingDatabaseService()` (line 275), before `initialize()` has
ever run, over arbitrary collaborator state. -/
def freshSt (store : Store) (file : Option String) (now : Int)
    (remote : Except Unit (List RemoteRow)) (pw fi fw fr : Bool)
    (sched : List Bool) : St :=
  { svc := newService, store := store, fileCsv := file, now := now,
    remote := remote, platformWeb := pw, fsInfoFails := fi,
    fsWriteFails := fw, fsReadFails := fr, storeFailures := sched,
    storeOpIdx := 0, remoteQueries := 0, cacheReads := 0 }


/-- A concrete in-memory entry used by the concrete-input theorems. -/
def sampleEntry : Entry := ⟨"Fireball", [JsNum.num (mkRat 1 10), JsNum.num (mkRat 1 5)]⟩

/-- A concrete remote row used by the concrete-input theorems. -/
def sampleRow : RemoteRow := ⟨"Sneak", [JsNum.num (mkRat 3 10)]⟩

/-- A concrete healthy world: initialized, online, nonempty in-memory set,
persisted cache present, stale timestamp. -/
def baseSt : St :=
  { svc := { isOfflineMode := false, initialized := true, embeddings := [sampleEntry] },
    store := { lastSync := some 0, offlineMode := some false,
               embedCache := some [sampleEntry], skillNames := none },
    fileCsv := none, now := 7200000, remote := Except.ok [sampleRow],
    platformWeb := true, fsInfoFails := false, fsWriteFails := false,
    fsReadFails := false, storeFailures := [], storeOpIdx := 0,
    remoteQueries := 0, cacheReads := 0 }

/-- C3: when the remote read of `syncFromCloud` fails (a returned error or
a thrown exception), the call returns the prior in-memory set, leaves the
in-memory set in place, and writes nothing to the persisted store. -/
theorem claim_C3 (s : St) (h : s.remote = Except.error ()) :
    (syncFromCloud s).1 = Except.ok s.svc.embeddings ∧
    (syncFromCloud s).2.svc.embeddings = s.svc.embeddings ∧
    (syncFromCloud s).2.store = s.store := by
  rw [syncFromCloud_err s h]
  simp [bumpRQ]

def cex3 : St := { baseSt with remote := Except.error () }

theorem claim_C3_witness :
    (syncFromCloud cex3).1 = Except.ok cex3.svc.embeddings ∧
    (syncFromCloud cex3).2.svc.embeddings = cex3.svc.embeddings ∧
    (syncFromCloud cex3).2.store = cex3.store :=
  claim_C3 cex3 rfl

/-- C9: when the remote query succeeds but returns no rows, `syncFromCloud`
returns the previous in-memory set, does not replace it, and writes
neither the sync timestamp nor the skill-names key. -/
theorem claim_C9 (s : St) (h : s.remote = Except.ok []) :
    (syncFromCloud s).1 = Except.ok s.svc.embeddings ∧
    (syncFromCloud s).2.svc.embeddings = s.svc.embeddings ∧
    (syncFromCloud s).2.store = s.store := by
  rw [syncFromCloud_emptyData s h]
  simp [bumpRQ]

def cex9 : St := { baseSt with remote := Except.ok [] }

theorem claim_C9_witness :
    (syncFromCloud cex9).1 = Except.ok cex9.svc.embeddings ∧
    (syncFromCloud cex9).2.svc.embeddings = cex9.svc.embeddings ∧
    (syncFromCloud cex9).2.store = cex9.store :=
  claim_C9 cex9 rfl

/-- C5: on a successful nonempty remote query (with a healthy store),
`syncFromCloud` maps each `{skill_name, embedding_vector}` row to the
local `{skill, embedding}` shape preserving the row order (hence the
ascending skill-name order of the query), replaces the whole in-memory
set with the mapped rows, and persists exactly the sync timestamp and the
skill names: the embeddings-cache and offline-mode keys are untouched. -/
theorem claim_C5 (s : St) (rows : List RemoteRow) (hr : s.remote = Except.ok rows)
    (hne : rows ≠ []) (hf : s.storeFailures = []) :
    (syncFromCloud s).1 =
      Except.ok (rows.map (fun r => Entry.mk r.skill_name r.embedding_vector)) ∧
    (syncFromCloud s).2.svc.embeddings =
      rows.map (fun r => Entry.mk r.skill_name r.embedding_vector) ∧
    (syncFromCloud s).2.svc.embeddings.map Entry.skill = rows.map RemoteRow.skill_name ∧
    (syncFromCloud s).2.svc.embeddings.map Entry.embedding =
      rows.map RemoteRow.embedding_vector ∧
    (List.Pairwise (fun a b => a ≤ b) (rows.map RemoteRow.skill_name) →
      List.Pairwise (fun a b => a ≤ b) ((syncFromCloud s).2.svc.embeddings.map Entry.skill)) ∧
    (syncFromCloud s).2.store.lastSync = some s.now ∧
    (syncFromCloud s).2.store.skillNames = some (rows.map RemoteRow.skill_name) ∧
    (syncFromCloud s).2.store.embedCache = s.store.embedCache ∧
    (syncFromCloud s).2.store.offlineMode = s.store.offlineMode := by
  have hs := syncFromCloud_ok s rows hr hne hf
  have hemb : (syncFromCloud s).2.svc.embeddings =
      rows.map (fun r => Entry.mk r.skill_name r.embedding_vector) := by
    rw [hs]; simp [putSkillNames, bump, putLastSync, putEmbeddings, bumpRQ]
  have hmap : (rows.map (fun r => Entry.mk r.skill_name r.embedding_vector)).map Entry.skill
      = rows.map RemoteRow.skill_name := by
    simp [List.map_map, Function.comp]
  refine ⟨by rw [hs], hemb, ?_, ?_, ?_,
    by rw [hs]; simp [putSkillNames, bump, putLastSync, putEmbeddings, bumpRQ],
    by rw [hs]; simp [putSkillNames, bump, putLastSync, putEmbeddings, bumpRQ],
    by rw [hs]; simp [putSkillNames, bump, putLastSync, putEmbeddings, bumpRQ],
    by rw [hs]; simp [putSkillNames, bump, putLastSync, putEmbeddings, bumpRQ]⟩
  · rw [hemb, hmap]
  · rw [hemb]; simp [List.map_map, Function.comp]
  · intro hp
    rw [hemb, hmap]
    exact hp

theorem claim_C5_witness :
    (syncFromCloud baseSt).1 =
      Except.ok ([sampleRow].map (fun r => Entry.mk r.skill_name r.embedding_vector)) ∧
    (syncFromCloud baseSt).2.store.lastSync = some baseSt.now ∧
    (syncFromCloud baseSt).2.store.skillNames = some ([sampleRow].map RemoteRow.skill_name) ∧
    (syncFromCloud baseSt).2.store.embedCache = baseSt.store.embedCache := by
  have H := claim_C5 baseSt [sampleRow] rfl (by decide) rfl
  exact ⟨H.1, H.2.2.2.2.2.1, H.2.2.2.2.2.2.1, H.2.2.2.2.2.2.2.1⟩

theorem getEmbTail_ok (s2 : St) (hf2 : s2.storeFailures = []) :
    (getEmbSyncStep s2).1 = Except.ok ((getEmbSyncStep s2).2.svc.embeddings) := by
  cases hm : s2.svc.isOfflineMode
  · have hsc := storeFails_nil s2 hf2
    by_cases hst : s2.now - s2.store.lastSync.getD 0 > ONE_HOUR
    · rw [getEmbSyncStep_stale s2 hm hsc hst]
      rcases hr : s2.remote with e | rows
      · cases e
        have hrb : (bump s2).remote = Except.error () := by simp [bump, hr]
        rw [syncFromCloud_err _ hrb]
        simp [bumpRQ, bump]
      · cases rows with
        | nil =>
          have hrb : (bump s2).remote = Except.ok ([] : List RemoteRow) := by simp [bump, hr]
          rw [syncFromCloud_emptyData _ hrb]
          simp [bumpRQ, bump]
        | cons a as =>
          have hrb : (bump s2).remote = Except.ok (a :: as) := by simp [bump, hr]
          have hfb : (bump s2).storeFailures = [] := by simp [bump, hf2]
          rw [syncFromCloud_ok _ (a :: as) hrb (by simp) hfb]
          simp [putSkillNames, bump, putLastSync, putEmbeddings, bumpRQ]
    · rw [getEmbSyncStep_fresh s2 hm hsc hst]
      simp [bump]
  · rw [getEmbSyncStep_offline s2 hm]

/-- C7 amended: whenever every key-value store operation succeeds,
`getEmbeddings()` returns successfully with the current in-memory set, for
any remote outcome, any file-system failures and any platform — remote and
file errors never propagate.  (As claim_C7_cex shows, a rejecting store
read in `initialize` or in the staleness check does propagate, so the
original blanket claim fails for store errors.) -/
theorem claim_C7 (s : St) (hf : s.storeFailures = []) :
    (getEmbeddings s).1 = Except.ok ((getEmbeddings s).2.svc.embeddings) := by
  unfold getEmbeddings
  cases hInit : s.svc.initialized
  · rw [initService_run s hInit (storeFails_nil s hf)]
    dsimp only
    rcases hP : getEmbLoadStep (putInit true
        (loadCachedEmbeddings (putMode (s.store.offlineMode.getD false) (bump s))).2)
      with ⟨r2, s2⟩
    have HP := getEmbLoadStep_frame (putInit true
      (loadCachedEmbeddings (putMode (s.store.offlineMode.getD false) (bump s))).2)
    rw [hP] at HP
    obtain ⟨hp1, hp2, hp3, hp4, hp5, hp6, hp7, hp8, hp9, hp10, hp11, hp12, hp13⟩ := HP
    subst hp1
    have h2f : s2.storeFailures = [] := by
      obtain ⟨-, -, -, -, -, -, -, -, h9, -, -⟩ :=
        loadCachedEmbeddings_frame (putMode (s.store.offlineMode.getD false) (bump s))
      rw [hp10]
      simp only [putInit]
      rw [h9]
      simp [putMode, bump, hf]
    exact getEmbTail_ok s2 h2f
  · rw [initService_done s hInit]
    dsimp only
    rcases hP : getEmbLoadStep s with ⟨r2, s2⟩
    have HP := getEmbLoadStep_frame s
    rw [hP] at HP
    obtain ⟨hp1, hp2, hp3, hp4, hp5, hp6, hp7, hp8, hp9, hp10, hp11, hp12, hp13⟩ := HP
    subst hp1
    have h2f : s2.storeFailures = [] := by rw [hp10]; exact hf
    exact getEmbTail_ok s2 h2f



/-- C8 amended: `setOfflineMode(flag)` always sets the in-memory flag
first, so a following `getOfflineMode()` returns the flag even when
persisting fails; with a healthy store the call completes successfully and
persists the flag, but (contrary to the original claim, see
claim_C8_cex) a persistence failure is propagated to the caller rather
than swallowed. -/
theorem claim_C8 (s : St) (b : Bool) :
    getOfflineMode (setOfflineMode b s).2 = b ∧
    (s.storeFailures = [] →
      setOfflineMode b s = (Except.ok (), putOffline b (bump (putMode b s)))) ∧
    (storeFails s = true → (setOfflineMode b s).1 = Except.error ()) := by
  cases hsc : storeFails s <;>
    simp_all [setOfflineMode, storeSetOfflineMode, getOfflineMode, putMode, putOffline,
      bump, storeFails]

theorem claim_C8_witness :
    getOfflineMode (setOfflineMode true baseSt).2 = true ∧
    setOfflineMode true baseSt = (Except.ok (), putOffline true (bump (putMode true baseSt))) :=
  ⟨(claim_C8 baseSt true).1, (claim_C8 baseSt true).2.1 rfl⟩

def cex8 : St := { baseSt with storeFailures := [true] }

theorem claim_C8_cex :
    (setOfflineMode true cex8).1 = Except.error () ∧
    getOfflineMode (setOfflineMode true cex8).2 = true :=
  ⟨rfl, rfl⟩

/-- After a first `initialize()` with a healthy flag read, the in-memory
mode equals the persisted flag (default `false`). -/
theorem initService_mode (s : St) (h : s.svc.initialized = false)
    (hsc : storeFails s = false) :
    (initService s).2.svc.isOfflineMode = s.store.offlineMode.getD false := by
  rw [initService_run s h hsc]
  have H := (loadCachedEmbeddings_frame (putMode (s.store.offlineMode.getD false) (bump s))).2.1
  simp only [putInit]
  rw [H]
  simp [putMode]

/-- C10: on a freshly constructed service, `getOfflineMode()` returns
`false` whatever the persisted offline-mode flag holds and performs no
I/O (it is a pure field read); the persisted flag only takes effect after
`initialize()` runs, after which `getOfflineMode` agrees with it. -/
theorem claim_C10 :
    (∀ (store : Store) (file : Option String) (now : Int)
       (remote : Except Unit (List RemoteRow)) (pw fi fw fr : Bool) (sched : List Bool),
       getOfflineMode (freshSt store file now remote pw fi fw fr sched) = false) ∧
    (∀ (store : Store) (file : Option String) (now : Int)
       (remote : Except Unit (List RemoteRow)) (pw fi fw fr : Bool),
       (initService (freshSt store file now remote pw fi fw fr [])).2.svc.isOfflineMode =
         store.offlineMode.getD false) := by
  constructor
  · intro store file now remote pw fi fw fr sched
    rfl
  · intro store file now remote pw fi fw fr
    exact initService_mode (freshSt store file now remote pw fi fw fr []) rfl
      (storeFails_nil _ rfl)

theorem claim_C10_witness :
    getOfflineMode (freshSt baseSt.store none 0 (Except.ok []) true false false false []) = false ∧
    (initService (freshSt baseSt.store none 0 (Except.ok []) true false false false
      [])).2.svc.isOfflineMode = baseSt.store.offlineMode.getD false :=
  ⟨claim_C10.1 baseSt.store none 0 (Except.ok []) true false false false [],
   claim_C10.2 baseSt.store none 0 (Except.ok []) true false false false⟩

/-- C4 amended: a sync call persists only the sync timestamp and the
skill names, never the embedding vectors, so the persisted
embeddings-cache key is unchanged by `syncFromCloud`; a
`loadCachedEmbeddings()` call after the sync therefore returns the
pre-sync persisted cache (identical pairs in the same order), not the
synced set (see claim_C4_cex for the original claim's failure). -/
theorem claim_C4 (s : St) (rows : List RemoteRow) (c : List Entry)
    (hr : s.remote = Except.ok rows) (hne : rows ≠ []) (hf : s.storeFailures = [])
    (hc : s.store.embedCache = some c) :
    (syncFromCloud s).2.store.embedCache = some c ∧
    (loadCachedEmbeddings (syncFromCloud s).2).1 = Except.ok c := by
  have hs := syncFromCloud_ok s rows hr hne hf
  have hec : (syncFromCloud s).2.store.embedCache = some c := by
    rw [hs]; simp [putSkillNames, bump, putLastSync, putEmbeddings, bumpRQ, hc]
  have hsf : (syncFromCloud s).2.storeFailures = [] := by
    rw [hs]; simp [putSkillNames, bump, putLastSync, putEmbeddings, bumpRQ, hf]
  exact ⟨hec, by rw [loadCachedEmbeddings_hit _ c (storeFails_nil _ hsf) hec]⟩

theorem claim_C4_witness :
    (syncFromCloud baseSt).2.store.embedCache = some [sampleEntry] ∧
    (loadCachedEmbeddings (syncFromCloud baseSt).2).1 = Except.ok [sampleEntry] :=
  claim_C4 baseSt [sampleRow] [sampleEntry] rfl (by decide) rfl rfl

theorem claim_C4_cex :
    (syncFromCloud baseSt).1 = Except.ok [Entry.mk "Sneak" [JsNum.num (mkRat 3 10)]] ∧
    (loadCachedEmbeddings (syncFromCloud baseSt).2).1 = Except.ok [sampleEntry] ∧
    sampleEntry ≠ Entry.mk "Sneak" [JsNum.num (mkRat 3 10)] :=
  ⟨rfl, rfl, by decide⟩

theorem claim_C7_witness :
    (getEmbeddings baseSt).1 = Except.ok ((getEmbeddings baseSt).2.svc.embeddings) :=
  claim_C7 baseSt rfl

def cex7 : St := { baseSt with storeFailures := [true] }

theorem claim_C7_cex : (getEmbeddings cex7).1 = Except.error () := rfl



/-- The state after a completed `setOfflineMode(true)`: the in-memory flag
and the persisted flag both say offline. -/
def OfflinePinned (s : St) : Prop :=
  s.svc.isOfflineMode = true ∧ s.store.offlineMode = some true

/-- C1: a completed `setOfflineMode(true)` pins both the in-memory and the
persisted offline flag; from any such pinned state, `getEmbeddings()`
issues no remote query (the query counter is unchanged) regardless of how
stale or absent the persisted last-sync timestamp is, the pinned flags
survive the call, and local cache reads still happen: whenever the service
is uninitialized or the in-memory set is empty (with a healthy store), the
cache-read counter strictly grows. -/
theorem claim_C1 :
    (∀ (s s2 : St), setOfflineMode true s = (Except.ok (), s2) → OfflinePinned s2) ∧
    (∀ t : St, OfflinePinned t →
      (getEmbeddings t).2.remoteQueries = t.remoteQueries ∧
      OfflinePinned (getEmbeddings t).2 ∧
      (t.storeFailures = [] → t.svc.initialized = false ∨ t.svc.embeddings = [] →
        t.cacheReads < (getEmbeddings t).2.cacheReads)) := by
  constructor
  · intro s s2 h
    unfold setOfflineMode storeSetOfflineMode at h
    cases hsc : storeFails (putMode true s) <;> rw [hsc] at h <;> simp at h
    rw [← h]
    simp [OfflinePinned, putOffline, bump, putMode]
  · intro t hPin
    obtain ⟨hm, hso⟩ := hPin
    unfold getEmbeddings
    cases hInit : t.svc.initialized
    · cases hsc : storeFails t
      · rw [initService_run t hInit hsc]
        dsimp only
        rw [hso]
        simp only [Option.getD_some]
        obtain ⟨hl1, hl2, hl3, hl4, hl5, hl6, hl7, hl8, hl9, hl10, hl11⟩ :=
          loadCachedEmbeddings_frame (putMode true (bump t))
        rcases hP : getEmbLoadStep (putInit true
            (loadCachedEmbeddings (putMode true (bump t))).2) with ⟨r2, s2⟩
        have HP := getEmbLoadStep_frame (putInit true
          (loadCachedEmbeddings (putMode true (bump t))).2)
        rw [hP] at HP
        obtain ⟨hp1, hp2, hp3, hp4, hp5, hp6, hp7, hp8, hp9, hp10, hp11, hp12, hp13⟩ := HP
        subst hp1
        dsimp only
        have hm2 : s2.svc.isOfflineMode = true := by
          rw [hp3]; simp only [putInit]; rw [hl2]; simp [putMode]
        rw [getEmbSyncStep_offline s2 hm2]
        refine ⟨?_, ⟨hm2, ?_⟩, ?_⟩
        · rw [hp9]; simp only [putInit]; rw [hl8]; simp [putMode, bump]
        · rw [hp5]; simp only [putInit]; rw [hl4]; simp [putMode, bump, hso]
        · intro hf hcase
          have h1 : s2.cacheReads ≥ (putInit true
              (loadCachedEmbeddings (putMode true (bump t))).2).cacheReads := hp11
          have h2 : (putInit true (loadCachedEmbeddings
              (putMode true (bump t))).2).cacheReads = t.cacheReads + 1 := by
            simp only [putInit]; rw [hl10]; simp [putMode, bump]
          show t.cacheReads < s2.cacheReads
          omega
      · rw [initService_fail t hInit hsc]
        dsimp only
        refine ⟨by simp [bump], ⟨by simpa [bump] using hm, by simpa [bump] using hso⟩, ?_⟩
        intro hf hcase
        simp [storeFails_nil t hf] at hsc
    · rw [initService_done t hInit]
      dsimp only
      rcases hP : getEmbLoadStep t with ⟨r2, s2⟩
      have HP := getEmbLoadStep_frame t
      rw [hP] at HP
      obtain ⟨hp1, hp2, hp3, hp4, hp5, hp6, hp7, hp8, hp9, hp10, hp11, hp12, hp13⟩ := HP
      subst hp1
      dsimp only
      have hm2 : s2.svc.isOfflineMode = true := hp3.trans hm
      rw [getEmbSyncStep_offline s2 hm2]
      refine ⟨hp9, ⟨hm2, hp5.trans hso⟩, ?_⟩
      intro hf hcase
      rcases hcase with hcase | hcase
      · simp at hcase
      · have hemp : t.svc.embeddings.isEmpty = true := by simp [hcase]
        have h2 : s2.cacheReads = t.cacheReads + 1 := hp12 hemp
        show t.cacheReads < s2.cacheReads
        omega


def pinnedSt : St :=
  { baseSt with
    svc := { isOfflineMode := true, initialized := true, embeddings := [sampleEntry] },
    store := { baseSt.store with offlineMode := some true } }

theorem claim_C1_witness :
    OfflinePinned (setOfflineMode true baseSt).2 ∧
    (getEmbeddings pinnedSt).2.remoteQueries = pinnedSt.remoteQueries :=
  ⟨claim_C1.1 baseSt (setOfflineMode true baseSt).2 rfl,
   (claim_C1.2 pinnedSt ⟨rfl, rfl⟩).1⟩

theorem storeSetLastSync_rq (t : Int) (s : St) :
    (storeSetLastSync t s).2.remoteQueries = s.remoteQueries := by
  unfold storeSetLastSync
  split <;> simp [bump, putLastSync]

theorem storeSetSkillNames_rq (ns : List String) (s : St) :
    (storeSetSkillNames ns s).2.remoteQueries = s.remoteQueries := by
  unfold storeSetSkillNames
  split <;> simp [bump, putSkillNames]

theorem syncFromCloud_rq (s : St) :
    (syncFromCloud s).2.remoteQueries = s.remoteQueries + 1 := by
  rcases hr : s.remote with e | rows
  · cases e
    rw [syncFromCloud_err s hr]
    simp [bumpRQ]
  · cases rows with
    | nil =>
      rw [syncFromCloud_emptyData s hr]
      simp [bumpRQ]
    | cons a as =>
      unfold syncFromCloud remoteSelectAll
      rw [hr]
      dsimp only
      rw [if_pos (by simp)]
      rcases hA : storeSetLastSync
          (putEmbeddings (List.map (fun r => Entry.mk r.skill_name r.embedding_vector)
            (a :: as)) (bumpRQ s)).now
          (putEmbeddings (List.map (fun r => Entry.mk r.skill_name r.embedding_vector)
            (a :: as)) (bumpRQ s)) with ⟨rA, sA⟩
      have hArq : sA.remoteQueries = s.remoteQueries + 1 := by
        have h := storeSetLastSync_rq
          (putEmbeddings (List.map (fun r => Entry.mk r.skill_name r.embedding_vector)
            (a :: as)) (bumpRQ s)).now
          (putEmbeddings (List.map (fun r => Entry.mk r.skill_name r.embedding_vector)
            (a :: as)) (bumpRQ s))
        rw [hA] at h
        simpa [putEmbeddings, bumpRQ] using h
      rw [hA]
      cases rA
      · exact hArq
      · dsimp only
        rcases hB : storeSetSkillNames (List.map (fun r => r.skill_name) (a :: as)) sA
          with ⟨rB, sB⟩
        have hBrq : sB.remoteQueries = s.remoteQueries + 1 := by
          have h := storeSetSkillNames_rq (List.map (fun r => r.skill_name) (a :: as)) sA
          rw [hB] at h
          rw [h]
          exact hArq
        rw [hB]
        cases rB
        · exact hBrq
        · exact hBrq

theorem getEmbeddings_freshCall (s : St) (L : Int)
    (hi : s.svc.initialized = true) (hm : s.svc.isOfflineMode = false)
    (hL : s.store.lastSync = some L) (hfresh : ¬(s.now - L > ONE_HOUR)) :
    (getEmbeddings s).2.remoteQueries = s.remoteQueries ∧
    (getEmbeddings s).2.svc.initialized = true ∧
    (getEmbeddings s).2.svc.isOfflineMode = false ∧
    (getEmbeddings s).2.store.lastSync = some L ∧
    (getEmbeddings s).2.now = s.now := by
  unfold getEmbeddings
  rw [initService_done s hi]
  dsimp only
  rcases hP : getEmbLoadStep s with ⟨r2, s2⟩
  have HP := getEmbLoadStep_frame s
  rw [hP] at HP
  obtain ⟨hp1, hp2, hp3, hp4, hp5, hp6, hp7, hp8, hp9, hp10, hp11, hp12, hp13⟩ := HP
  subst hp1
  dsimp only
  have hm2 : s2.svc.isOfflineMode = false := hp3.trans hm
  have hL2 : s2.store.lastSync = some L := hp4.trans hL
  have hn2 : s2.now = s.now := hp7
  cases hsc2 : storeFails s2
  · have hfresh2 : ¬(s2.now - s2.store.lastSync.getD 0 > ONE_HOUR) := by
      rw [hn2, hL2]
      simpa using hfresh
    rw [getEmbSyncStep_fresh s2 hm2 hsc2 hfresh2]
    exact ⟨by simpa [bump] using hp9, by simpa [bump] using hp2.trans hi,
      by simpa [bump] using hm2, by simpa [bump] using hL2, by simpa [bump] using hn2⟩
  · rw [getEmbSyncStep_fail s2 hm2 hsc2]
    exact ⟨by simpa [bump] using hp9, by simpa [bump] using hp2.trans hi,
      by simpa [bump] using hm2, by simpa [bump] using hL2, by simpa [bump] using hn2⟩

theorem getEmbeddings_stalePull (t : St)
    (hi : t.svc.initialized = true) (hm : t.svc.isOfflineMode = false)
    (hf : t.storeFailures = [])
    (hst : t.now - t.store.lastSync.getD 0 > ONE_HOUR) :
    (getEmbeddings t).2.remoteQueries = t.remoteQueries + 1 := by
  unfold getEmbeddings
  rw [initService_done t hi]
  dsimp only
  rcases hP : getEmbLoadStep t with ⟨r2, s2⟩
  have HP := getEmbLoadStep_frame t
  rw [hP] at HP
  obtain ⟨hp1, hp2, hp3, hp4, hp5, hp6, hp7, hp8, hp9, hp10, hp11, hp12, hp13⟩ := HP
  subst hp1
  dsimp only
  have hm2 : s2.svc.isOfflineMode = false := hp3.trans hm
  have hf2 : s2.storeFailures = [] := hp10.trans hf
  have hst2 : s2.now - s2.store.lastSync.getD 0 > ONE_HOUR := by
    rw [hp7, hp4]
    exact hst
  rw [getEmbSyncStep_stale s2 hm2 (storeFails_nil s2 hf2) hst2]
  have := syncFromCloud_rq (bump s2)
  rw [this]
  simp [bump]
  exact hp9

theorem getEmbeddings_staleSync (s : St) (rows : List RemoteRow)
    (hi : s.svc.initialized = true) (hm : s.svc.isOfflineMode = false)
    (hf : s.storeFailures = []) (hr : s.remote = Except.ok rows) (hne : rows ≠ [])
    (hst : s.now - s.store.lastSync.getD 0 > ONE_HOUR) :
    (getEmbeddings s).2.remoteQueries = s.remoteQueries + 1 ∧
    (getEmbeddings s).2.svc.initialized = true ∧
    (getEmbeddings s).2.svc.isOfflineMode = false ∧
    (getEmbeddings s).2.store.lastSync = some s.now ∧
    (getEmbeddings s).2.now = s.now := by
  unfold getEmbeddings
  rw [initService_done s hi]
  dsimp only
  rcases hP : getEmbLoadStep s with ⟨r2, s2⟩
  have HP := getEmbLoadStep_frame s
  rw [hP] at HP
  obtain ⟨hp1, hp2, hp3, hp4, hp5, hp6, hp7, hp8, hp9, hp10, hp11, hp12, hp13⟩ := HP
  subst hp1
  dsimp only
  have hm2 : s2.svc.isOfflineMode = false := hp3.trans hm
  have hf2 : s2.storeFailures = [] := hp10.trans hf
  have hst2 : s2.now - s2.store.lastSync.getD 0 > ONE_HOUR := by
    rw [hp7, hp4]
    exact hst
  rw [getEmbSyncStep_stale s2 hm2 (storeFails_nil s2 hf2) hst2]
  have hrb : (bump s2).remote = Except.ok rows := by
    simp only [bump]
    exact hp8.trans hr
  have hfb : (bump s2).storeFailures = [] := by
    simp only [bump]
    exact hf2
  rw [syncFromCloud_ok (bump s2) rows hrb hne hfb]
  refine ⟨?_, ?_, ?_, ?_, ?_⟩ <;>
    simp [putSkillNames, bump, putLastSync, putEmbeddings, bumpRQ]
  · exact hp9
  · exact hp2.trans hi
  · exact hm2
  · exact hp7
  · exact hp7


/-- C2: with `isOfflineMode = false`, two `getEmbeddings()` calls whose
start times both lie within one hour of the persisted last-sync timestamp
perform no remote pull at all (so at most one); when the first call is
stale and its pull succeeds with data, a second call within the hour of
the first performs no further pull (one pull in total); and a call made
after the window has elapsed since the persisted timestamp performs
another remote pull. -/
theorem claim_C2 :
    (∀ (s : St) (L t2 : Int),
      s.svc.initialized = true → s.svc.isOfflineMode = false →
      s.store.lastSync = some L →
      ¬(s.now - L > ONE_HOUR) → ¬(t2 - L > ONE_HOUR) →
      (getEmbeddings s).2.remoteQueries = s.remoteQueries ∧
      (getEmbeddings { (getEmbeddings s).2 with now := t2 }).2.remoteQueries =
        s.remoteQueries) ∧
    (∀ (s : St) (rows : List RemoteRow) (t2 : Int),
      s.svc.initialized = true → s.svc.isOfflineMode = false →
      s.storeFailures = [] → s.remote = Except.ok rows → rows ≠ [] →
      s.now - s.store.lastSync.getD 0 > ONE_HOUR →
      ¬(t2 - s.now > ONE_HOUR) →
      (getEmbeddings s).2.remoteQueries = s.remoteQueries + 1 ∧
      (getEmbeddings { (getEmbeddings s).2 with now := t2 }).2.remoteQueries =
        s.remoteQueries + 1) ∧
    (∀ t : St,
      t.svc.initialized = true → t.svc.isOfflineMode = false →
      t.storeFailures = [] → t.now - t.store.lastSync.getD 0 > ONE_HOUR →
      (getEmbeddings t).2.remoteQueries = t.remoteQueries + 1) := by
  refine ⟨?_, ?_, ?_⟩
  · intro s L t2 hi hm hL h1 h2
    obtain ⟨a1, a2, a3, a4, a5⟩ := getEmbeddings_freshCall s L hi hm hL h1
    refine ⟨a1, ?_⟩
    have b := getEmbeddings_freshCall { (getEmbeddings s).2 with now := t2 } L a2 a3 a4 h2
    exact b.1.trans a1
  · intro s rows t2 hi hm hf hr hne hst hfresh
    obtain ⟨a1, a2, a3, a4, a5⟩ := getEmbeddings_staleSync s rows hi hm hf hr hne hst
    refine ⟨a1, ?_⟩
    have b := getEmbeddings_freshCall { (getEmbeddings s).2 with now := t2 } s.now a2 a3 a4
      hfresh
    exact b.1.trans a1
  · intro t hi hm hf hst
    exact getEmbeddings_stalePull t hi hm hf hst

theorem claim_C2_witness :
    (getEmbeddings { baseSt with now := 100 }).2.remoteQueries =
      ({ baseSt with now := 100 } : St).remoteQueries ∧
    (getEmbeddings baseSt).2.remoteQueries = baseSt.remoteQueries + 1 :=
  ⟨(claim_C2.1 { baseSt with now := 100 } 0 50 rfl rfl rfl (by decide) (by decide)).1,
   claim_C2.2.2 baseSt rfl rfl rfl (by decide)⟩



/-- C6: the parser of `loadFromCsv` skips the header line (the first
row's content is irrelevant), skips blank lines, skips lines missing
either field without failing (no comma, empty skill, or empty embedding
field), splits each kept line on the first comma only, and produces one
entry per kept line whose vector has exactly one number per
whitespace-separated token of the quote-stripped embedding field; in
particular the line with skill `Sneak` and quoted field `0.1 0.2 0.3`
parses to the entry with that skill and vector `[1/10, 1/5, 3/10]`. -/
theorem claim_C6 :
    (∀ (h h2 : List Char) (rows : List (List Char)),
      parseCsvRows (h :: rows) = parseCsvRows (h2 :: rows)) ∧
    (∀ (h b : List Char) (pre post : List (List Char)), isBlankRow b = true →
      parseCsvRows (h :: (pre ++ b :: post)) = parseCsvRows (h :: (pre ++ post))) ∧
    (∀ (h m : List Char) (pre post : List (List Char)), parseLine m = none →
      parseCsvRows (h :: (pre ++ m :: post)) = parseCsvRows (h :: (pre ++ post))) ∧
    (∀ line : List Char, splitFirstComma line = none → parseLine line = none) ∧
    (∀ (line sk rest : List Char), splitFirstComma line = some (sk, rest) →
      sk = [] ∨ rest = [] → parseLine line = none) ∧
    (∀ (line sk rest : List Char), splitFirstComma line = some (sk, rest) →
      sk ≠ [] → rest ≠ [] →
      parseLine line = some ⟨⟨sk⟩, (embeddingTokens rest).map jsNumber⟩ ∧
      ((embeddingTokens rest).map jsNumber).length = (embeddingTokens rest).length) ∧
    parseCsv "Skill,Embedding\nSneak,\"0.1 0.2 0.3\"" =
      [⟨"Sneak", [JsNum.num (mkRat 1 10), JsNum.num (mkRat 1 5), JsNum.num (mkRat 3 10)]⟩] := by
  refine ⟨?_, ?_, ?_, ?_, ?_, ?_, ?_⟩
  · intro h h2 rows
    rfl
  · intro h b pre post hb
    simp [parseCsvRows, List.filterMap_append, List.filterMap_cons, hb]
  · intro h m pre post hp
    cases hbm : isBlankRow m <;>
      simp [parseCsvRows, List.filterMap_append, List.filterMap_cons, hbm, hp]
  · intro line h
    simp [parseLine, h]
  · intro line sk rest h hd
    unfold parseLine
    rw [h]
    exact if_pos hd
  · intro line sk rest h hsk hrest
    constructor
    · simp [parseLine, h, hsk, hrest]
    · exact List.length_map _ _
  · decide

theorem claim_C6_witness :
    parseCsvRows ["Skill,Embedding".data, "A,1".data] =
      parseCsvRows ["X".data, "A,1".data] ∧
    parseLine "Nope".data = none ∧
    parseLine "A,1".data =
      some ⟨⟨"A".data⟩, (embeddingTokens "1".data).map jsNumber⟩ :=
  ⟨claim_C6.1 "Skill,Embedding".data "X".data ["A,1".data],
   claim_C6.2.2.2.1 "Nope".data (by decide),
   (claim_C6.2.2.2.2.2.1 "A,1".data "A".data "1".data (by decide) (by decide) (by decide)).1⟩


end GdRpg
